import Mathlib

/-
Verification development for the QGIS Swiss Locator plugin, file
swiss_locator/swiss_locator_filter.py.

The Python source is shallowly embedded below.  Host-application objects
(QGIS geometries, coordinate transforms, the network stack, the Qt event
loop) are external collaborators; they are modelled by small explicit data
types and by parameters, while every piece of logic that lives in the
plugin file itself (tagged-result encoding and decoding, request fan-out
bookkeeping, the box-string tokenizer, guards and error handling) is
translated statement by statement from the source.

Conventions:
* Python floats are modelled as `Rat` (the claims never depend on binary
  rounding); the literal 1.1 becomes 11/10.
* JSON dictionaries are association lists in insertion order; the
  json.dumps/json.loads round trip of the host library is the identity on
  such dictionaries, so `as_definition` produces the dictionary directly.
* The QGIS WKT round trip (`asWkt` / `fromWkt` and `asWktPolygon` /
  `QgsRectangle.fromWkt`) is likewise the identity on points and
  rectangles and is modelled by storing the point or rectangle itself.
* Fallible code returns `Option` or `Except`.
-/

/-! ### Geometry primitives (QgsPointXY, QgsRectangle) -/

/-- A QgsPointXY: a pair of coordinates. -/
structure PointXY where
  x : Rat
  y : Rat
deriving DecidableEq

/-- A QgsRectangle, as built by QgsRectangle(xmin, ymin, xmax, ymax). -/
structure Rect where
  xmin : Rat
  ymin : Rat
  xmax : Rat
  ymax : Rat
deriving DecidableEq

/-- QgsRectangle.scale(f): scales width and height by f about the centre. -/
def Rect.scale (r : Rect) (f : Rat) : Rect :=
  ⟨(r.xmin + r.xmax) / 2 - (r.xmax - r.xmin) * f / 2,
   (r.ymin + r.ymax) / 2 - (r.ymax - r.ymin) * f / 2,
   (r.xmin + r.xmax) / 2 + (r.xmax - r.xmin) * f / 2,
   (r.ymin + r.ymax) / 2 + (r.ymax - r.ymin) * f / 2⟩

/-- Bounding box of a point geometry: the degenerate rectangle at the point. -/
def pointRect (p : PointXY) : Rect := ⟨p.x, p.y, p.x, p.y⟩

/-! ### JSON values and dictionaries

The `userData` definitions are JSON objects whose values are strings,
null, or WKT-encoded geometries.  A WKT string produced by `asWkt` and
read back by `fromWkt` denotes exactly its point (resp. rectangle), so
geometry-valued entries carry the geometry itself. -/

inductive JVal where
  | jstr (s : String)
  | jpoint (p : PointXY)
  | jrect (r : Rect)
  | jnull
deriving DecidableEq

/-- Python dict lookup `d[key]`, returning none where Python raises KeyError. -/
def jget (d : List (String × JVal)) (key : String) : Option JVal :=
  match d.find? (fun kv => kv.1 == key) with
  | some kv => some kv.2
  | none => none

/-! ### The tagged result model (WMSLayerResult, LocationResult, FeatureResult, NoResult) -/

structure WMSLayerResult where
  layer : String
  title : String
  url : String
deriving DecidableEq

/-- WMSLayerResult.as_definition: json.dumps of the tagged dictionary. -/
def WMSLayerResult.as_definition (r : WMSLayerResult) : List (String × JVal) :=
  [("type", JVal.jstr "WMSLayerResult"), ("title", JVal.jstr r.title),
   ("layer", JVal.jstr r.layer), ("url", JVal.jstr r.url)]

/-- WMSLayerResult.from_dict: reads layer, title, url. -/
def WMSLayerResult.from_dict (d : List (String × JVal)) : Option WMSLayerResult :=
  match jget d "layer", jget d "title", jget d "url" with
  | some (JVal.jstr l), some (JVal.jstr t), some (JVal.jstr u) => some ⟨l, t, u⟩
  | _, _, _ => none

structure LocationResult where
  point : PointXY
  bbox : Rect
  layer : Option String
  feature_id : Option String
  html_label : String
deriving DecidableEq

/-- None becomes JSON null, a string stays a string. -/
def optStrToJVal : Option String → JVal
  | none => JVal.jnull
  | some s => JVal.jstr s

/-- JSON null decodes to None, a string to itself. -/
def jvalToOptStr : JVal → Option (Option String)
  | JVal.jstr s => some (some s)
  | JVal.jnull => some none
  | _ => none

/-- LocationResult.as_definition. -/
def LocationResult.as_definition (r : LocationResult) : List (String × JVal) :=
  [("type", JVal.jstr "LocationResult"), ("point", JVal.jpoint r.point),
   ("bbox", JVal.jrect r.bbox), ("layer", optStrToJVal r.layer),
   ("feature_id", optStrToJVal r.feature_id), ("html_label", JVal.jstr r.html_label)]

/-- LocationResult.from_dict. -/
def LocationResult.from_dict (d : List (String × JVal)) : Option LocationResult :=
  match jget d "point", jget d "bbox", jget d "layer", jget d "feature_id",
      jget d "html_label" with
  | some (JVal.jpoint p), some (JVal.jrect b), some lv, some fv, some (JVal.jstr hl) =>
    match jvalToOptStr lv, jvalToOptStr fv with
    | some l, some f => some ⟨p, b, l, f, hl⟩
    | _, _ => none
  | _, _, _, _, _ => none

structure FeatureResult where
  point : PointXY
  layer : String
  feature_id : String
deriving DecidableEq

/-- FeatureResult.as_definition. -/
def FeatureResult.as_definition (r : FeatureResult) : List (String × JVal) :=
  [("type", JVal.jstr "FeatureResult"), ("point", JVal.jpoint r.point),
   ("layer", JVal.jstr r.layer), ("feature_id", JVal.jstr r.feature_id)]

/-- FeatureResult.from_dict. -/
def FeatureResult.from_dict (d : List (String × JVal)) : Option FeatureResult :=
  match jget d "point", jget d "layer", jget d "feature_id" with
  | some (JVal.jpoint p), some (JVal.jstr l), some (JVal.jstr f) => some ⟨p, l, f⟩
  | _, _, _ => none

/-- NoResult.as_definition. -/
def noResult_as_definition : List (String × JVal) := [("type", JVal.jstr "NoResult")]

/-- The decoded result, one constructor per Python class. -/
inductive SwissResult where
  | wms (r : WMSLayerResult)
  | location (r : LocationResult)
  | feature (r : FeatureResult)
  | noResult
deriving DecidableEq

/-- result_from_data: dispatch on the 'type' tag of the definition; a missing
'type' key raises (none), any unknown tag yields NoResult. -/
def result_from_data (d : List (String × JVal)) : Option SwissResult :=
  match jget d "type" with
  | none => none
  | some t =>
    if t = JVal.jstr "WMSLayerResult" then (WMSLayerResult.from_dict d).map SwissResult.wms
    else if t = JVal.jstr "LocationResult" then
      (LocationResult.from_dict d).map SwissResult.location
    else if t = JVal.jstr "FeatureResult" then
      (FeatureResult.from_dict d).map SwissResult.feature
    else some SwissResult.noResult

/-! ### Filter types and URL construction -/

inductive FilterType where
  | Location
  | WMS
  | Feature
deriving DecidableEq

/-- The Enum values: 'locations', 'layers', 'featuresearch'. -/
def FilterType.value : FilterType → String
  | FilterType.Location => "locations"
  | FilterType.WMS => "layers"
  | FilterType.Feature => "featuresearch"

/-- str.join of Python, with an arbitrary separator. -/
def joinSep (sep : String) : List String → String
  | [] => ""
  | [s] => s
  | s :: rest => s ++ sep ++ joinSep sep rest

/-- Whether a string ends in '?': the only suffix QUrl folds away before the
query is re-attached. -/
def endsWithQMark (s : String) : Bool := s.data.getLast? == some '?'

/-- url_with_param: QUrl plus QUrlQuery.addQueryItem for each pair, then
url.url().  A base that already ends in a bare '?' (the opendata.swiss base)
parses to an empty query, so the single '?' is kept; percent-encoding of the
host library is not modelled. -/
def url_with_param (url : String) (params : List (String × String)) : String :=
  (if endsWithQMark url then url.dropRight 1 else url) ++ "?" ++
    joinSep "&" (params.map (fun kv => kv.1 ++ "=" ++ kv.2))

def swisstopo_base_url : String :=
  "https://api3.geo.admin.ch/rest/services/api/SearchServer"

/-- The base parameter dictionary built at the top of fetchResults. -/
def swisstopo_base_params (ftype : FilterType) (search lang crs limit : String) :
    List (String × String) :=
  [("type", ftype.value), ("searchText", search), ("returnGeometry", "true"),
   ("lang", lang), ("sr", crs), ("limit", limit)]

/-- The opendata.swiss catalog search URL appended when the setting
layers_include_opendataswiss is on and the filter type is WMS. -/
def opendata_search_url (search : String) : String :=
  url_with_param "https://opendata.swiss/api/3/action/package_search?"
    [("q", "q=WMS+%C3" ++ search)]

/-! ### Paged feature-layer fan-out -/

/-- Python slice xs[a:b] (end-exclusive, clamped). -/
def pySlice (xs : List String) (a b : Nat) : List String := (xs.drop a).take (b - a)

/-- The batches of layer names built by fetchResults for the feature search:
for l in range(0, len(layers), 30):
  last = min(l + 30 - 1, len(layers) - 1); batch = layers[l:last]. -/
def featureBatches (layers : List String) : List (List String) :=
  (List.range ((layers.length + 29) / 30)).map (fun i =>
    pySlice layers (30 * i) (min (30 * i + 29) (layers.length - 1)))

/-- One request URL per batch, with the comma-joined batch in 'features'. -/
def feature_request_urls (search lang crs limit : String) (layers : List String) :
    List String :=
  (featureBatches layers).map (fun batch =>
    url_with_param swisstopo_base_url
      (swisstopo_base_params FilterType.Feature search lang crs limit ++
        [("features", joinSep "," batch)]))

/-! ### fetchResults: guards, requests and the NoResult placeholder -/

/-- What fetchResults plans to do for a given search: which request URLs are
built, and whether the single 'No result found.' placeholder is emitted at the
end.  The responses themselves are external; resultFound abstracts whether any
handle_response callback emitted a result. -/
structure FetchPlan where
  requestUrls : List String
  noResultPlaceholder : Bool
deriving DecidableEq

def fetchResults_plan (ftype : FilterType) (search lang crs limit : String)
    (includeOpendata : Bool) (layers : List String) (resultFound : Bool) : FetchPlan :=
  if search.length < 2 then ⟨[], false⟩
  else if search.length < 4 ∧ ftype = FilterType.Feature then ⟨[], false⟩
  else if ftype ≠ FilterType.Feature then
    ⟨[url_with_param swisstopo_base_url (swisstopo_base_params ftype search lang crs limit)]
        ++ (if includeOpendata ∧ ftype = FilterType.WMS then [opendata_search_url search]
            else []),
     !resultFound⟩
  else ⟨feature_request_urls search lang crs limit layers, !resultFound⟩

/-! ### The reply_finished callback of the feature search -/

/-- The final for loop of reply_finished, exactly as indented in the source:
for nam in self.access_managers.values():
  if nam is not None: return
  self.event_loop.quit()
Returns whether event_loop.quit() was called at least once. -/
def quitLoopAux : List (Option Nat) → Bool → Bool
  | [], quitCalled => quitCalled
  | some _ :: _, quitCalled => quitCalled
  | none :: rest, _ => quitLoopAux rest true

def quitLoop (vals : List (Option Nat)) : Bool := quitLoopAux vals false

/-- reply_finished: mark the finished reply's URL slot None (when present),
then run the quit loop over the dictionary values in insertion order.
Returns the updated dictionary and whether the event loop was quit. -/
def reply_finished_model (ams : List (String × Option Nat)) (url : String) :
    List (String × Option Nat) × Bool :=
  let ams2 :=
    if ams.any (fun kv => kv.1 == url) then
      ams.map (fun kv => if kv.1 == url then (kv.1, (none : Option Nat)) else kv)
    else ams
  (ams2, quitLoop (ams2.map Prod.snd))

/-! ### Error handling in handle_response / parse_feature_response -/

/-- The log messages of the non-200 branch at the top of handle_response. -/
def handle_response_error_logs (statusCode : Nat) (excIsUserAbort : Bool)
    (url : String) : List String :=
  if statusCode ≠ 200 then
    if excIsUserAbort then []
    else ["Error in main response with status code: " ++ toString statusCode ++
          " from " ++ url]
  else []

/-- The log messages of the non-200 branch at the top of parse_feature_response. -/
def parse_feature_response_error_logs (statusCode : Nat) (excIsUserAbort : Bool)
    (url : String) : List String :=
  if statusCode ≠ 200 then
    if excIsUserAbort then []
    else ["Error in feature response with status code: " ++ toString statusCode ++
          " from " ++ url]
  else []

/-- One blocking request attempt inside fetchResults (lines 375-381):
a user abort is passed over silently, any other RequestsException is logged,
and a completed response goes through the handle_response status guard. -/
inductive RequestOutcome where
  | success (statusCode : Nat) (excIsUserAbort : Bool) (url : String)
  | userAbort
  | requestError (msg : String)
deriving DecidableEq

def fetch_request_logs : RequestOutcome → List String
  | RequestOutcome.userAbort => []
  | RequestOutcome.requestError msg => [msg]
  | RequestOutcome.success statusCode excIsUserAbort url =>
      handle_response_error_logs statusCode excIsUserAbort url

/-- The observable state handle_response touches: the result_found flag, a
count of results emitted through resultFetched, and the log. -/
structure HandleState where
  result_found : Bool
  emitted : Nat
  logs : List String
deriving DecidableEq

/-- handle_response with its 200-body abstracted as a continuation: a non-200
response returns after at most one log line, never reaching the body. -/
def handle_response_guarded (statusCode : Nat) (excIsUserAbort : Bool) (url : String)
    (st : HandleState) (body : HandleState → HandleState) : HandleState :=
  if statusCode ≠ 200 then
    ⟨st.result_found, st.emitted,
     st.logs ++ handle_response_error_logs statusCode excIsUserAbort url⟩
  else body st

/-- parse_feature_response with its 200-body abstracted, same shape. -/
def parse_feature_response_guarded (statusCode : Nat) (excIsUserAbort : Bool)
    (url : String) (st : HandleState) (body : HandleState → HandleState) : HandleState :=
  if statusCode ≠ 200 then
    ⟨st.result_found, st.emitted,
     st.logs ++ parse_feature_response_error_logs statusCode excIsUserAbort url⟩
  else body st

/-! ### The feature branch of handle_response and the follow-up URLs -/

/-- The attrs of one geoportal response entry with origin == 'feature'. -/
structure FeatureAttrs where
  layer : String
  lon : Rat
  lat : Rat
  detail : String
  feature_id : String
deriving DecidableEq

/-- The FeatureResult stored as userData for a 'feature' entry:
point from lon/lat, layer and feature_id straight from the attrs. -/
def feature_entry_result (attrs : FeatureAttrs) : FeatureResult :=
  ⟨⟨attrs.lon, attrs.lat⟩, attrs.layer, attrs.feature_id⟩

/-- The group display lookup for a 'feature' entry: the display name of the
layer in searchable_layers, or the bare layer id plus a warning when absent. -/
def feature_entry_group (searchable : List (String × String)) (layer : String) :
    String × Bool :=
  match searchable.find? (fun kv => kv.1 == layer) with
  | some kv => (kv.2, false)
  | none => (layer, true)

def mapserver_base : String := "https://api3.geo.admin.ch/rest/services/api/MapServer/"

/-- The detail URL built in fetch_feature. -/
def fetch_feature_url (layer feature_id lang crs : String) : String :=
  url_with_param (mapserver_base ++ layer ++ "/" ++ feature_id)
    [("lang", lang), ("sr", crs)]

/-- The htmlPopup URL built in show_map_tip. -/
def show_map_tip_url (layer feature_id lang crs : String) : String :=
  url_with_param (mapserver_base ++ layer ++ "/" ++ feature_id ++ "/htmlPopup")
    [("lang", lang), ("sr", crs)]

/-! ### triggerResult -/

/-- The externally visible steps of triggerResult and its helpers, in order. -/
inductive UiAction where
  | clearResults
  | logInfo (msg : String) (warning : Bool)
  | addWmsLayer (uri : String) (layerName : String)
  | emitMessage (msg : String) (warning : Bool)
  | resetRubberBand
  | addRubberBandGeometry (p : PointXY)
  | setExtent (r : Rect)
  | refreshCanvas
  | fetchFeature (layer : String) (featureId : String)
  | showMapTip (layer : String) (featureId : String) (p : PointXY)
  | startClearTimer
deriving DecidableEq

/-- The WMS data-source URI format string of the WMSLayerResult branch. -/
def wms_uri (crs layer url : String) : String :=
  "contextualWMSLegend=0&crs=EPSG:" ++ crs ++
    "&dpiMode=7&featureCount=10&format=image/png&layers=" ++ layer ++
    "&styles=&url=" ++ url

/-- highlight(point, bbox): reset the rubber band, add the point, scale the
bounding box of bbox by 1.1 and pan the canvas to it. -/
def highlight_actions (p : PointXY) (bboxRect : Rect) : List UiAction :=
  [UiAction.resetRubberBand, UiAction.addRubberBandGeometry p,
   UiAction.setExtent (Rect.scale bboxRect (11 / 10)), UiAction.refreshCanvas]

/-- Python truthiness of an optional string (None and '' are falsy). -/
def pyTruthyOptStr : Option String → Bool
  | none => false
  | some s => !(s == "")

/-- PyQGIS QgsGeometry exposes neither __bool__ nor __len__, so a geometry
object is always truthy and the 'if not point or not bbox' guard of the
LocationResult branch never returns. -/
def qgsGeometry_truthy : Bool := true

/-- triggerResult on an already decoded result.  The coordinate transforms
and the validity of the constructed QgsRasterLayer are host-side effects,
passed as parameters; displayString is the clicked result's display text. -/
def triggerResult (res : SwissResult) (crs displayString : String)
    (wmsValid showMapTipSetting : Bool)
    (transform_ch transform_4326 : PointXY → PointXY)
    (transform_ch_rect : Rect → Rect) : List UiAction :=
  UiAction.clearResults ::
  (match res with
   | SwissResult.noResult => []
   | SwissResult.wms r =>
     if wmsValid then
       [UiAction.addWmsLayer (wms_uri crs r.layer r.url) displayString,
        UiAction.emitMessage
          ("WMS layer added to the map: " ++ r.title ++ " (" ++ r.layer ++ ")") false]
     else
       [UiAction.logInfo
          ("Cannot load WMS layer: " ++ r.title ++ " (" ++ r.layer ++ ")") true,
        UiAction.emitMessage
          ("Cannot load WMS layer: " ++ r.title ++ " (" ++ r.layer ++ ")") true]
   | SwissResult.feature r =>
     let p := transform_4326 r.point
     highlight_actions p (pointRect p) ++
       (if showMapTipSetting then [UiAction.showMapTip r.layer r.feature_id p] else [])
   | SwissResult.location r =>
     if !qgsGeometry_truthy then []
     else
       let p := transform_ch r.point
       let b := transform_ch_rect r.bbox
       highlight_actions p b ++
         (if pyTruthyOptStr r.layer && pyTruthyOptStr r.feature_id then
            UiAction.fetchFeature (r.layer.getD "") (r.feature_id.getD "") ::
              (if showMapTipSetting then
                [UiAction.showMapTip (r.layer.getD "") (r.feature_id.getD "") p]
               else [])
          else [UiAction.startClearTimer]))

/-! ### box2geometry and its number tokenizer

re.findall with the pattern of word-bounded unsigned decimals scans left to
right; a candidate starts at a digit preceded by a non-word character (or the
string start), takes the maximal digit run, optionally a dot plus a maximal
digit run, and requires a word boundary after the match.  When the trailing
boundary after the fractional part fails, backtracking drops the optional
group and the integer part alone matches (its trailing '.' is a boundary);
when the boundary directly after the digit run fails, no shorter run can end
at a boundary, so the candidate yields nothing.  The inputs are the ASCII
BOX(...) strings of the geoportal, so \w and \d are taken as ASCII classes.
The single pass below implements exactly that. -/

/-- An ASCII word character for the \b boundary: letter, digit or underscore. -/
def isWordChar (c : Char) : Bool := c.isAlphanum || c = '_'

/-- Scanner state: outside a candidate, inside the integer digit run, or past
the dot of the optional fractional part. -/
inductive ScanState where
  | outside
  | inInt (ds : List Char)
  | inFrac (ds : List Char) (fs : List Char)
deriving DecidableEq

/-- Token emitted at the end of input for the current state. -/
def finishToken : ScanState → List String
  | ScanState.outside => []
  | ScanState.inInt ds => [String.mk ds]
  | ScanState.inFrac ds [] => [String.mk ds]
  | ScanState.inFrac ds fs => [String.mk (ds ++ '.' :: fs)]

/-- One pass of the scanner; prevW records whether the previous character was
a word character (false at the string start). -/
def scanAux : Bool → ScanState → List Char → List String
  | _, st, [] => finishToken st
  | prevW, ScanState.outside, c :: cs =>
    if !prevW && c.isDigit then scanAux true (ScanState.inInt [c]) cs
    else scanAux (isWordChar c) ScanState.outside cs
  | _, ScanState.inInt ds, c :: cs =>
    if c.isDigit then scanAux true (ScanState.inInt (ds ++ [c])) cs
    else if c = '.' then scanAux false (ScanState.inFrac ds []) cs
    else if isWordChar c then scanAux true ScanState.outside cs
    else String.mk ds :: scanAux false ScanState.outside cs
  | _, ScanState.inFrac ds fs, c :: cs =>
    if c.isDigit then scanAux true (ScanState.inFrac ds (fs ++ [c])) cs
    else if isWordChar c then String.mk ds :: scanAux true ScanState.outside cs
    else finishToken (ScanState.inFrac ds fs) ++ scanAux false ScanState.outside cs

/-- re.findall of the number-token pattern over a string. -/
def findall_number_tokens (s : String) : List String := scanAux false ScanState.outside s.data

/-- Value of an ASCII digit run. -/
def digitsToNat (ds : List Char) : Nat :=
  ds.foldl (fun acc c => 10 * acc + (c.toNat - Char.toNat '0')) 0

/-- Python float() on a matched token (digits, optionally dot digits). -/
def pyFloat (s : String) : Rat :=
  let intPart := s.data.takeWhile (fun c => !(c = '.'))
  match s.data.dropWhile (fun c => !(c = '.')) with
  | [] => (digitsToNat intPart : Rat)
  | _ :: frac => (digitsToNat intPart : Rat) + (digitsToNat frac : Rat) / (10 : Rat) ^ frac.length

/-- box2geometry: findall the number tokens; any count other than four raises
InvalidBox, four tokens build QgsRectangle(n1, n2, n3, n4) in order. -/
def box2geometry (box : String) : Except String Rect :=
  let coords := findall_number_tokens box
  if coords.length ≠ 4 then Except.error ("Could not parse: " ++ box)
  else Except.ok ⟨pyFloat (coords.getD 0 ""), pyFloat (coords.getD 1 ""),
                  pyFloat (coords.getD 2 ""), pyFloat (coords.getD 3 "")⟩

/-! ### rank2priority -/

/-- rank2priority: float(-rank / 7 + 1). -/
def rank2priority (rank : Rat) : Rat := -rank / 7 + 1

/-! ## Theorems -/

/-- Claim C1: the paged feature-layer fan-out is claimed to cover every
searchable layer exactly once across the batched request URLs.  Evaluating the
batch construction of fetchResults refutes this: Python's end-exclusive slice
layers[l:last] with last = min(l + 29, len(layers) - 1) drops the final layer
of every 30-block, so with layers [a, b, c] the only batch is [a, b] and layer
c appears in no request's features parameter. -/
theorem feature_fanout_drops_layers :
    featureBatches ["a", "b", "c"] = [["a", "b"]] ∧
    List.flatten (featureBatches ["a", "b", "c"]) ≠ ["a", "b", "c"] ∧
    "c" ∉ List.flatten (featureBatches ["a", "b", "c"]) ∧
    featureBatches ["a"] = [[]] := by decide

/-- Claim C2: reply_finished is claimed to call event_loop.quit() only when
every value of access_managers is None.  Evaluating the callback refutes this:
quit() sits inside the for loop over the values, so after the request for u1
finishes (its slot set to None) the loop calls quit() on the first None value
even though u2's request is still pending. -/
theorem reply_finished_quits_with_pending_request :
    (reply_finished_model [("u1", some 1), ("u2", some 2)] "u1").2 = true ∧
    (reply_finished_model [("u1", some 1), ("u2", some 2)] "u1").1 =
      [("u1", none), ("u2", some 2)] ∧
    some 2 ∈ ((reply_finished_model [("u1", some 1), ("u2", some 2)] "u1").1.map
      Prod.snd) := by decide

/-- Claim C10: rank2priority is the affine map rank to -rank/7 + 1, equal to
(7 - rank)/7 over the rationals; on integer ranks 1 to 7 it lies in [0, 6/7],
maps rank 7 to 0 and is strictly decreasing. -/
theorem rank2priority_affine_decreasing :
    ∀ n : ℤ, 1 ≤ n → n ≤ 7 →
      rank2priority (n : Rat) = 1 - (n : Rat) / 7 ∧
      rank2priority (n : Rat) = (7 - (n : Rat)) / 7 ∧
      0 ≤ rank2priority (n : Rat) ∧
      rank2priority (n : Rat) ≤ 6 / 7 ∧
      rank2priority (7 : Rat) = 0 ∧
      (∀ m : ℤ, 1 ≤ m → m < n → rank2priority (n : Rat) < rank2priority (m : Rat)) := by
  intro n h1 h7
  have hn1 : (1 : Rat) ≤ (n : Rat) := by exact_mod_cast h1
  have hn7 : (n : Rat) ≤ 7 := by exact_mod_cast h7
  refine ⟨by unfold rank2priority; ring, by unfold rank2priority; ring, ?_, ?_, ?_, ?_⟩
  · unfold rank2priority; linarith
  · unfold rank2priority; linarith
  · unfold rank2priority; norm_num
  · intro m hm1 hmn
    have hmn' : (m : Rat) < (n : Rat) := by exact_mod_cast hmn
    unfold rank2priority
    linarith

/-- Witness for rank2priority_affine_decreasing at rank 7 against rank 1. -/
theorem rank2priority_affine_decreasing_witness :
    rank2priority (7 : Rat) = 0 ∧
    rank2priority ((7 : ℤ) : Rat) < rank2priority ((1 : ℤ) : Rat) := by
  have h := rank2priority_affine_decreasing 7 (by norm_num) (by norm_num)
  exact ⟨h.2.2.2.2.1, h.2.2.2.2.2 1 (by norm_num) (by norm_num)⟩

/-- Claim C3: decoding the definition produced by as_definition of a
WMSLayerResult, LocationResult or FeatureResult yields an object of the same
class with equal fields, and any definition whose 'type' tag is none of the
three class tags decodes to NoResult. -/
theorem result_roundtrip_and_default :
    (∀ r : WMSLayerResult,
      result_from_data (WMSLayerResult.as_definition r) = some (SwissResult.wms r)) ∧
    (∀ r : LocationResult,
      result_from_data (LocationResult.as_definition r) = some (SwissResult.location r)) ∧
    (∀ r : FeatureResult,
      result_from_data (FeatureResult.as_definition r) = some (SwissResult.feature r)) ∧
    (∀ (d : List (String × JVal)) (t : JVal), jget d "type" = some t →
      t ≠ JVal.jstr "WMSLayerResult" → t ≠ JVal.jstr "LocationResult" →
      t ≠ JVal.jstr "FeatureResult" →
      result_from_data d = some SwissResult.noResult) := by
  refine ⟨?_, ?_, ?_, ?_⟩
  · intro r; rfl
  · intro r
    obtain ⟨p, b, l, f, hl⟩ := r
    cases l <;> cases f <;> rfl
  · intro r; rfl
  · intro d t hget h1 h2 h3
    unfold result_from_data
    rw [hget]
    simp only [if_neg h1, if_neg h2, if_neg h3]

/-- Witness for result_roundtrip_and_default: the NoResult definition itself
carries the unknown tag 'NoResult' and decodes to NoResult. -/
theorem result_roundtrip_and_default_witness :
    result_from_data noResult_as_definition = some SwissResult.noResult :=
  result_roundtrip_and_default.2.2.2 noResult_as_definition (JVal.jstr "NoResult")
    (by decide) (by decide) (by decide) (by decide)

/-- Claim C4: a user abort of an in-flight request is swallowed silently by
fetchResults and by the status guard of handle_response, while any other
RequestsException and any non-200 response without a user abort is reported
through info. -/
theorem user_abort_silent_other_errors_logged :
    fetch_request_logs RequestOutcome.userAbort = [] ∧
    (∀ (statusCode : Nat) (url : String), statusCode ≠ 200 →
      fetch_request_logs (RequestOutcome.success statusCode true url) = []) ∧
    (∀ msg : String, fetch_request_logs (RequestOutcome.requestError msg) = [msg]) ∧
    (∀ (statusCode : Nat) (url : String), statusCode ≠ 200 →
      fetch_request_logs (RequestOutcome.success statusCode false url) =
        ["Error in main response with status code: " ++ toString statusCode ++
         " from " ++ url]) := by
  refine ⟨rfl, ?_, fun msg => rfl, ?_⟩
  · intro statusCode url h
    simp [fetch_request_logs, handle_response_error_logs, h]
  · intro statusCode url h
    simp [fetch_request_logs, handle_response_error_logs, h]

/-- Witness for user_abort_silent_other_errors_logged at a 404 response. -/
theorem user_abort_silent_other_errors_logged_witness :
    fetch_request_logs (RequestOutcome.success 404 true "https://x") = [] ∧
    fetch_request_logs (RequestOutcome.success 404 false "https://x") =
      ["Error in main response with status code: 404 from https://x"] := by
  have h1 := user_abort_silent_other_errors_logged.2.1 404 "https://x" (by decide)
  have h2 := user_abort_silent_other_errors_logged.2.2.2 404 "https://x" (by decide)
  refine ⟨h1, ?_⟩
  rw [h2]
  decide

/-- Claim C9: a response whose status_code is not 200 is side-effect free in
handle_response and parse_feature_response: no result is emitted, result_found
is unchanged, and at most one error line is logged, none on a user abort. -/
theorem error_response_side_effect_free :
    ∀ (statusCode : Nat) (excIsUserAbort : Bool) (url : String) (st : HandleState)
      (body : HandleState → HandleState), statusCode ≠ 200 →
      ((handle_response_guarded statusCode excIsUserAbort url st body).result_found =
          st.result_found ∧
       (handle_response_guarded statusCode excIsUserAbort url st body).emitted =
          st.emitted ∧
       (excIsUserAbort = true →
          handle_response_guarded statusCode excIsUserAbort url st body = st) ∧
       (excIsUserAbort = false →
          (handle_response_guarded statusCode excIsUserAbort url st body).logs =
            st.logs ++ ["Error in main response with status code: " ++
              toString statusCode ++ " from " ++ url])) ∧
      ((parse_feature_response_guarded statusCode excIsUserAbort url st body).result_found =
          st.result_found ∧
       (parse_feature_response_guarded statusCode excIsUserAbort url st body).emitted =
          st.emitted ∧
       (excIsUserAbort = true →
          parse_feature_response_guarded statusCode excIsUserAbort url st body = st) ∧
       (excIsUserAbort = false →
          (parse_feature_response_guarded statusCode excIsUserAbort url st body).logs =
            st.logs ++ ["Error in feature response with status code: " ++
              toString statusCode ++ " from " ++ url])) := by
  intro statusCode excIsUserAbort url st body h
  constructor
  · refine ⟨?_, ?_, ?_, ?_⟩
    · simp [handle_response_guarded, h]
    · simp [handle_response_guarded, h]
    · intro ha
      simp [handle_response_guarded, handle_response_error_logs, h, ha]
    · intro ha
      simp [handle_response_guarded, handle_response_error_logs, h, ha]
  · refine ⟨?_, ?_, ?_, ?_⟩
    · simp [parse_feature_response_guarded, h]
    · simp [parse_feature_response_guarded, h]
    · intro ha
      simp [parse_feature_response_guarded, parse_feature_response_error_logs, h, ha]
    · intro ha
      simp [parse_feature_response_guarded, parse_feature_response_error_logs, h, ha]

/-- Witness for error_response_side_effect_free at a 500 response. -/
theorem error_response_side_effect_free_witness :
    handle_response_guarded 500 true "https://x" ⟨false, 0, []⟩ id = ⟨false, 0, []⟩ ∧
    (handle_response_guarded 500 false "https://x" ⟨false, 0, []⟩ id).emitted = 0 :=
  ⟨(error_response_side_effect_free 500 true "https://x" ⟨false, 0, []⟩ id
      (by decide)).1.2.2.1 rfl,
   (error_response_side_effect_free 500 false "https://x" ⟨false, 0, []⟩ id
      (by decide)).1.2.1⟩

/-- Claim C7: a search of fewer than 2 characters (any filter type), or fewer
than 4 characters on the Feature filter, makes fetchResults return with no
request URL built and no result emitted, not even the placeholder; for longer
searches the single 'No result found.' placeholder is emitted exactly when no
result was found. -/
theorem short_search_no_request_no_result :
    ∀ (ftype : FilterType) (search lang crs limit : String) (includeOpendata : Bool)
      (layers : List String) (resultFound : Bool),
      (search.length < 2 →
        fetchResults_plan ftype search lang crs limit includeOpendata layers resultFound
          = ⟨[], false⟩) ∧
      (ftype = FilterType.Feature → search.length < 4 →
        fetchResults_plan ftype search lang crs limit includeOpendata layers resultFound
          = ⟨[], false⟩) ∧
      (2 ≤ search.length → (ftype = FilterType.Feature → 4 ≤ search.length) →
        (fetchResults_plan ftype search lang crs limit includeOpendata layers
            resultFound).noResultPlaceholder = !resultFound) := by
  intro ftype search lang crs limit includeOpendata layers resultFound
  refine ⟨?_, ?_, ?_⟩
  · intro h
    unfold fetchResults_plan
    rw [if_pos h]
  · intro hf h4
    unfold fetchResults_plan
    by_cases h1 : search.length < 2
    · rw [if_pos h1]
    · rw [if_neg h1, if_pos ⟨h4, hf⟩]
  · intro h2 h4
    have h1 : ¬search.length < 2 := by omega
    have hx : ¬(search.length < 4 ∧ ftype = FilterType.Feature) := by
      rintro ⟨ha, hb⟩
      have := h4 hb
      omega
    unfold fetchResults_plan
    rw [if_neg h1, if_neg hx]
    by_cases hft : ftype ≠ FilterType.Feature
    · rw [if_pos hft]
    · rw [if_neg hft]

/-- Witness for short_search_no_request_no_result: a one-character location
search plans nothing; a two-character one emits the placeholder when nothing
was found. -/
theorem short_search_no_request_no_result_witness :
    fetchResults_plan FilterType.Location "a" "en" "2056" "50" false [] false
      = ⟨[], false⟩ ∧
    (fetchResults_plan FilterType.Location "ab" "en" "2056" "50" false [] false
      ).noResultPlaceholder = !false :=
  ⟨(short_search_no_request_no_result FilterType.Location "a" "en" "2056" "50" false []
      false).1 (by decide),
   (short_search_no_request_no_result FilterType.Location "ab" "en" "2056" "50" false []
      false).2.2 (by decide) (by intro h; cases h)⟩

/-- Claim C8: box2geometry returns QgsRectangle(n1, n2, n3, n4) built from the
four number tokens of the box string in order of appearance whenever the
findall of the word-bounded decimal pattern yields exactly four tokens, and
raises InvalidBox for every other token count. -/
theorem box2geometry_total_on_wellformed :
    ∀ box : String,
      ((findall_number_tokens box).length = 4 →
        box2geometry box = Except.ok
          ⟨pyFloat ((findall_number_tokens box).getD 0 ""),
           pyFloat ((findall_number_tokens box).getD 1 ""),
           pyFloat ((findall_number_tokens box).getD 2 ""),
           pyFloat ((findall_number_tokens box).getD 3 "")⟩) ∧
      ((findall_number_tokens box).length ≠ 4 →
        box2geometry box = Except.error ("Could not parse: " ++ box)) := by
  intro box
  constructor
  · intro h
    unfold box2geometry
    rw [if_neg (by rw [h]; exact fun hc => hc rfl)]
  · intro h
    unfold box2geometry
    rw [if_pos h]

/-- Witness for box2geometry_total_on_wellformed on a geoportal box string
and on a malformed one. -/
theorem box2geometry_total_on_wellformed_witness :
    box2geometry "BOX(2533700 1151900,2533800 1152000)" =
      Except.ok ⟨2533700, 1151900, 2533800, 1152000⟩ ∧
    box2geometry "BOX(1 2 3)" = Except.error "Could not parse: BOX(1 2 3)" := by
  have h1 := (box2geometry_total_on_wellformed "BOX(2533700 1151900,2533800 1152000)").1
    (by decide)
  have h2 := (box2geometry_total_on_wellformed "BOX(1 2 3)").2 (by decide)
  refine ⟨?_, ?_⟩
  · rw [h1]
    congr 1
  · rw [h2]
    congr 1

/-- Claim C6: a FeatureResult built from a geoportal 'feature' entry carries
exactly the entry's layer and feature_id, and the detail URL of fetch_feature
and the htmlPopup URL of show_map_tip embed exactly that layer/feature_id
pair (for identifiers that do not end in a bare '?', which QUrl would fold
into the query). -/
theorem feature_identified_by_layer_and_id :
    ∀ (attrs : FeatureAttrs) (lang crs : String),
      (feature_entry_result attrs).layer = attrs.layer ∧
      (feature_entry_result attrs).feature_id = attrs.feature_id ∧
      (endsWithQMark (mapserver_base ++ attrs.layer ++ "/" ++ attrs.feature_id) = false →
        fetch_feature_url (feature_entry_result attrs).layer
            (feature_entry_result attrs).feature_id lang crs =
          mapserver_base ++ attrs.layer ++ "/" ++ attrs.feature_id ++ "?" ++ "lang" ++
            "=" ++ lang ++ "&" ++ "sr" ++ "=" ++ crs) ∧
      (endsWithQMark (mapserver_base ++ attrs.layer ++ "/" ++ attrs.feature_id ++
            "/htmlPopup") = false →
        show_map_tip_url (feature_entry_result attrs).layer
            (feature_entry_result attrs).feature_id lang crs =
          mapserver_base ++ attrs.layer ++ "/" ++ attrs.feature_id ++ "/htmlPopup" ++
            "?" ++ "lang" ++ "=" ++ lang ++ "&" ++ "sr" ++ "=" ++ crs) := by
  intro attrs lang crs
  refine ⟨rfl, rfl, ?_, ?_⟩
  · intro h
    unfold fetch_feature_url url_with_param feature_entry_result
    rw [h]
    simp only [joinSep, List.map, Bool.false_eq_true, if_false, String.append_assoc]
  · intro h
    unfold show_map_tip_url url_with_param feature_entry_result
    rw [h]
    simp only [joinSep, List.map, Bool.false_eq_true, if_false, String.append_assoc]

/-- Witness for feature_identified_by_layer_and_id on a concrete entry. -/
theorem feature_identified_by_layer_and_id_witness :
    fetch_feature_url
        (feature_entry_result ⟨"ch.bfs.gebaeude_wohnungs_register", 7, 46, "d", "123"⟩).layer
        (feature_entry_result ⟨"ch.bfs.gebaeude_wohnungs_register", 7, 46, "d", "123"⟩).feature_id
        "en" "2056" =
      mapserver_base ++ "ch.bfs.gebaeude_wohnungs_register" ++ "/" ++ "123" ++ "?" ++
        "lang" ++ "=" ++ "en" ++ "&" ++ "sr" ++ "=" ++ "2056" :=
  ((feature_identified_by_layer_and_id
      ⟨"ch.bfs.gebaeude_wohnungs_register", 7, 46, "d", "123"⟩ "en" "2056").2.2.1
    (by decide))

/-- Claim C5: triggerResult first clears the previous highlights; on a
WMSLayerResult it builds the WMS URI from crs/layer/url and adds the raster
layer (a warning instead when the layer is invalid); on a FeatureResult it
highlights the point transformed from EPSG:4326; on a LocationResult it
highlights the point and bbox transformed from the Swiss CRS and pans to the
bounding box scaled by 1.1; on NoResult it does nothing further. -/
theorem triggerResult_dispatch :
    ∀ (crs displayString : String) (wmsValid showMapTipSetting : Bool)
      (tch t4326 : PointXY → PointXY) (tchRect : Rect → Rect),
      (∀ res : SwissResult,
        (triggerResult res crs displayString wmsValid showMapTipSetting
            tch t4326 tchRect).head? = some UiAction.clearResults) ∧
      (triggerResult SwissResult.noResult crs displayString wmsValid showMapTipSetting
          tch t4326 tchRect = [UiAction.clearResults]) ∧
      (∀ r : WMSLayerResult, wmsValid = true →
        UiAction.addWmsLayer (wms_uri crs r.layer r.url) displayString ∈
          triggerResult (SwissResult.wms r) crs displayString wmsValid showMapTipSetting
            tch t4326 tchRect) ∧
      (∀ r : WMSLayerResult, wmsValid = false →
        (∀ uri nm, UiAction.addWmsLayer uri nm ∉
          triggerResult (SwissResult.wms r) crs displayString wmsValid showMapTipSetting
            tch t4326 tchRect) ∧
        UiAction.emitMessage ("Cannot load WMS layer: " ++ r.title ++ " (" ++ r.layer ++ ")")
            true ∈
          triggerResult (SwissResult.wms r) crs displayString wmsValid showMapTipSetting
            tch t4326 tchRect) ∧
      (∀ r : FeatureResult,
        UiAction.addRubberBandGeometry (t4326 r.point) ∈
          triggerResult (SwissResult.feature r) crs displayString wmsValid
            showMapTipSetting tch t4326 tchRect ∧
        UiAction.setExtent (Rect.scale (pointRect (t4326 r.point)) (11 / 10)) ∈
          triggerResult (SwissResult.feature r) crs displayString wmsValid
            showMapTipSetting tch t4326 tchRect) ∧
      (∀ r : LocationResult,
        UiAction.addRubberBandGeometry (tch r.point) ∈
          triggerResult (SwissResult.location r) crs displayString wmsValid
            showMapTipSetting tch t4326 tchRect ∧
        UiAction.setExtent (Rect.scale (tchRect r.bbox) (11 / 10)) ∈
          triggerResult (SwissResult.location r) crs displayString wmsValid
            showMapTipSetting tch t4326 tchRect) := by
  intro crs displayString wmsValid showMapTipSetting tch t4326 tchRect
  refine ⟨?_, rfl, ?_, ?_, ?_, ?_⟩
  · intro res
    cases res <;> rfl
  · intro r hv
    subst hv
    simp [triggerResult]
  · intro r hv
    subst hv
    constructor
    · intro uri nm
      simp [triggerResult]
    · simp [triggerResult]
  · intro r
    constructor <;>
      · cases showMapTipSetting <;> simp [triggerResult, highlight_actions]
  · intro r
    constructor <;>
      · cases hb : pyTruthyOptStr r.layer && pyTruthyOptStr r.feature_id <;>
          cases showMapTipSetting <;>
            simp [triggerResult, highlight_actions, qgsGeometry_truthy, hb]

/-- Witness for triggerResult_dispatch: a valid WMS layer result is added. -/
theorem triggerResult_dispatch_witness :
    UiAction.addWmsLayer (wms_uri "2056" "ch.lay" "https://wms.geo.admin.ch/") "disp" ∈
      triggerResult (SwissResult.wms ⟨"ch.lay", "Title", "https://wms.geo.admin.ch/"⟩)
        "2056" "disp" true false id id id :=
  (triggerResult_dispatch "2056" "disp" true false id id id).2.2.1
    ⟨"ch.lay", "Title", "https://wms.geo.admin.ch/"⟩ rfl
